import Mathlib

/-!
Verification of the INSEE SIRENE bulk-download component
(`src/ingestion/download_data.py`, `src/utils/config.py`,
`src/utils/logger.py`) against its design specification.

The Python code is shallowly embedded: configuration dictionaries become
association lists in insertion order (Python 3.7+ dict semantics: insertion
order is preserved, assigning to an existing key updates the value in place),
fallible operations return `Except`, and the external world (clock, filesystem
`mkdir` outcomes, HTTP transfer outcomes) is an explicit environment argument.
-/

set_option autoImplicit false

namespace BizClosure

/-! ## Python dictionaries as association lists -/

/-- Keys of a Python dict modelled as an association list. -/
def dictKeys {α : Type} (d : List (String × α)) : List String :=
  d.map Prod.fst

/-- `d.get(k)` / `d[k]` lookup: first entry with the given key. -/
def dictGet {α : Type} (d : List (String × α)) (k : String) : Option α :=
  match d with
  | [] => none
  | p :: rest => if p.1 = k then some p.2 else dictGet rest k

/-- `d[k] = v` assignment: an existing key keeps its position and gets the new
value; a fresh key is appended at the end (Python 3.7+ insertion order). -/
def dictInsert {α : Type} (d : List (String × α)) (k : String) (v : α) :
    List (String × α) :=
  if k ∈ dictKeys d then
    d.map (fun p => if p.1 = k then (k, v) else p)
  else
    d ++ [(k, v)]


/-! ## Configuration model (`src/utils/config.py`)

A loaded YAML configuration document.  The claims only involve the `insee`
and `paths` top-level keys; each is `Option`-valued to model its possible
absence from the document (`config.get(key, {})`). -/

/-- The `insee:` section of the configuration document. -/
structure InseeSection where
  download_urls : Option (List (String × String))
  metadata : Option (List (String × String))
deriving DecidableEq

/-- A loaded configuration document (the dict returned by `load_config`). -/
structure Config where
  insee : Option InseeSection
  paths : Option (List (String × String))
deriving DecidableEq

/-- `get_insee_urls`: `config.get("insee", {}).get("download_urls", {})`.
Total by construction — a missing key yields the empty mapping, mirroring
`dict.get` with a `{}` default, and no fault is ever raised. -/
def get_insee_urls (config : Config) : List (String × String) :=
  match config.insee with
  | none => []
  | some s => s.download_urls.getD []

/-- `get_insee_metadata`: `config.get("insee", {}).get("metadata", {})`. -/
def get_insee_metadata (config : Config) : List (String × String) :=
  match config.insee with
  | none => []
  | some s => s.metadata.getD []

/-- `get_data_paths`: `config.get("paths", {})`. -/
def get_data_paths (config : Config) : List (String × String) :=
  config.paths.getD []

/-! ## The single-file downloader (`download_file`)

The transfer itself is external I/O; its outcome is an environment input.
The five cases below are exactly the control paths of the `try` block:
normal completion, and the four exception classes caught by its handlers
(`requests.exceptions.Timeout`, `requests.exceptions.HTTPError`, any other
`requests.exceptions.RequestException`, and `IOError` while writing).
Chunked streaming and the progress bar do not affect the returned value and
are abstracted away. -/

inductive TransferOutcome where
  | success
  | timeout
  | httpError
  | networkError
  | ioError
deriving DecidableEq

/-- Exceptions that can escape the embedded functions: `OSError` (from
`Path.mkdir`) and `KeyError` (from a `dict[...]` lookup). -/
inductive PyExc where
  | osError
  | keyError
deriving DecidableEq

/-- Logger calls made by `download_file`, in order.  (`debugStart` is the
`logger.debug("Starting download from ...")` call issued before the HTTP
request; the others are the per-path `logger.info` / `logger.error` calls.) -/
inductive LogEvent where
  | debugStart (url : String)
  | infoSuccess (path : String)
  | errTimeout (url : String)
  | errHTTP (url : String)
  | errNetwork (url : String)
  | errWrite (path : String)
deriving DecidableEq

/-- Environment of one `download_file` call: whether
`local_path.parent.mkdir(parents=True, exist_ok=True)` succeeds, and how the
guarded transfer ends. -/
structure FetchEnv where
  mkdirOk : Bool
  outcome : TransferOutcome
deriving DecidableEq

/-- `download_file(url, local_path)`.  The parent-directory creation happens
before the `try` block, so its failure propagates as a raised `OSError`;
every failure of the guarded transfer is caught, logged, and turned into a
`False` return value.  The result pairs the Python return (or escaped
exception) with the log calls performed. -/
def download_file (url local_path : String) (env : FetchEnv) :
    Except PyExc Bool × List LogEvent :=
  if env.mkdirOk then
    match env.outcome with
    | .success => (.ok true, [.debugStart url, .infoSuccess local_path])
    | .timeout => (.ok false, [.debugStart url, .errTimeout url])
    | .httpError => (.ok false, [.debugStart url, .errHTTP url])
    | .networkError => (.ok false, [.debugStart url, .errNetwork url])
    | .ioError => (.ok false, [.debugStart url, .errWrite local_path])
  else
    (.error .osError, [])

/-! ## The batch orchestrator (`download_insee_files`) -/

/-- `datetime.now().strftime("%Y-%m")`: the year, then the month zero-padded
to two digits. -/
def formatYM (year month : Nat) : String :=
  toString year ++ "-" ++ (if month < 10 then "0" ++ toString month else toString month)

/-- Whether the first character list is a prefix of the second. -/
def listStartsWith : List Char → List Char → Bool
  | [], _ => true
  | _ :: _, [] => false
  | c :: cs, d :: ds => c = d && listStartsWith cs ds

/-- Python `s.endswith(post)`. -/
def pyEndsWith (s post : String) : Bool :=
  listStartsWith post.data.reverse s.data.reverse

/-- Left-to-right scan of Python `s.replace(old, new)` for a non-empty `old`:
at each position, when the remainder starts with the pattern, emit the
replacement and skip the pattern, else keep one character.  The fuel is the
input length — each step consumes at least one character, so it never runs
out on the initial call. -/
def replaceFuel (pat repl : List Char) : Nat → List Char → List Char
  | _, [] => []
  | 0, s => s
  | Nat.succ fuel, c :: cs =>
    if listStartsWith pat (c :: cs) && !pat.isEmpty then
      repl ++ replaceFuel pat repl fuel (List.drop (pat.length - 1) cs)
    else
      c :: replaceFuel pat repl fuel cs

/-- Python `s.replace(old, new)` (non-empty `old`): replaces every
non-overlapping occurrence, scanning left to right. -/
def pyReplace (s pat repl : String) : String :=
  ⟨replaceFuel pat.data repl.data s.data.length s.data⟩

/-- Tail of the scan for `url.split("/")[-1]`: the characters after the last
separator. -/
def lastSegGo : List Char → List Char → List Char
  | [], acc => acc.reverse
  | c :: cs, acc => if c = '/' then lastSegGo cs [] else lastSegGo cs (c :: acc)

/-- `url.split("/")[-1]`: the final path segment of the URL (the whole URL
when it contains no slash, empty when it ends in one). -/
def lastSegment (url : String) : String :=
  ⟨lastSegGo url.data []⟩

/-- Environment of one `download_insee_files` call: the current date (for the
`%Y-%m` timestamp), which directory creations succeed, and the transfer
outcome for each URL. -/
structure Env where
  year : Nat
  month : Nat
  mkdirOk : String → Bool
  outcome : String → TransferOutcome

/-- Resolution of the destination directory (lines 98-102): the caller's
`output_dir` when supplied, else `data_paths["bronze"] / timestamp`.  The
subscript lookup raises `KeyError` when the `bronze` key is absent. -/
def resolveDir (data_paths : List (String × String)) (output_dir : Option String)
    (env : Env) : Except PyExc String :=
  match output_dir with
  | some d => .ok d
  | none =>
    match dictGet data_paths "bronze" with
    | some b => .ok (b ++ "/" ++ formatYM env.year env.month)
    | none => .error .keyError

/-- `files_to_download is None or file_type in files_to_download`
(line 114). -/
def keepType (files_to_download : Option (List String)) (file_type : String) :
    Bool :=
  match files_to_download with
  | none => true
  | some fs => decide (file_type ∈ fs)

/-- One iteration of the URL-filtering loop (lines 111-115): keep entries
whose key ends in `_url`, derive the file type with
`key.replace("_url", "")` — which removes every occurrence of `_url`, not
just a suffix — and keep it when no filter is given or the type is in the
filter list. -/
def urlStep (files_to_download : Option (List String))
    (acc : List (String × String)) (p : String × String) :
    List (String × String) :=
  if pyEndsWith p.1 "_url" then
    if keepType files_to_download (pyReplace p.1 "_url" "") then
      dictInsert acc (pyReplace p.1 "_url" "") p.2
    else acc
  else acc

/-- The `urls_to_download` dict built by the filtering loop. -/
def urlsToDownload (insee_urls : List (String × String))
    (files_to_download : Option (List String)) : List (String × String) :=
  insee_urls.foldl (urlStep files_to_download) []

/-- Specification helper: the sequence of derived file types the filtering
loop selects (with multiplicity, before dict insertion collapses
duplicates). -/
def selectedTypes (files_to_download : Option (List String)) :
    List (String × String) → List String
  | [] => []
  | p :: rest =>
    if pyEndsWith p.1 "_url" then
      if keepType files_to_download (pyReplace p.1 "_url" "") then
        pyReplace p.1 "_url" "" :: selectedTypes files_to_download rest
      else selectedTypes files_to_download rest
    else selectedTypes files_to_download rest

/-- The boolean outcome recorded for one transfer (line 129): the inner
`download_file` call, whose parent-directory creation succeeds because the
destination directory was already created by the orchestrator. -/
def fetchSucceeded (url local_path : String) (outcome : TransferOutcome) : Bool :=
  match (download_file url local_path ⟨true, outcome⟩).1 with
  | .ok b => b
  | .error _ => false

/-- One iteration of the download loop (lines 121-130): fetch and record the
result under the file type (`results[file_type] = success`). -/
def resultStep (dir : String) (env : Env) (acc : List (String × Bool))
    (p : String × String) : List (String × Bool) :=
  dictInsert acc p.1 (fetchSucceeded p.2 (dir ++ "/" ++ lastSegment p.2) (env.outcome p.2))

/-- The `results` dict built by the download loop. -/
def downloadLoop (urls : List (String × String)) (dir : String) (env : Env) :
    List (String × Bool) :=
  urls.foldl (resultStep dir env) []

/-- Observable filesystem/network actions of one orchestration run, in
program order: a directory creation, or one attempted transfer
(file type, URL, destination path). -/
inductive Event where
  | mkdirEvt (dir : String)
  | fetchEvt (fileType url dest : String)
deriving DecidableEq

/-- Result of `download_insee_files`: the Python return value (or the escaped
exception) together with the trace of directory creations and attempted
transfers. -/
structure RunOutput where
  result : Except PyExc (List (String × Bool))
  events : List Event

/-- `download_insee_files(config, output_dir, files_to_download)`:
resolve the URL and path sub-views, resolve the destination directory
(possibly raising `KeyError` on a missing `bronze` path), create it
(possibly raising `OSError`), filter the URLs, then download each selected
file sequentially and aggregate the boolean outcomes into the report. -/
def download_insee_files (config : Config) (output_dir : Option String)
    (files_to_download : Option (List String)) (env : Env) : RunOutput :=
  match resolveDir (get_data_paths config) output_dir env with
  | .error e => ⟨.error e, []⟩
  | .ok dir =>
    if env.mkdirOk dir then
      ⟨.ok (downloadLoop (urlsToDownload (get_insee_urls config) files_to_download)
          dir env),
        Event.mkdirEvt dir ::
          (urlsToDownload (get_insee_urls config) files_to_download).map
            (fun p => Event.fetchEvt p.1 p.2 (dir ++ "/" ++ lastSegment p.2))⟩
    else
      ⟨.error .osError, [Event.mkdirEvt dir]⟩

/-- Number of attempted transfers in a trace. -/
def fetchCount (events : List Event) : Nat :=
  (events.filter (fun e => match e with
    | .fetchEvt _ _ _ => true
    | _ => false)).length

/-! ## Logger setup (`src/utils/logger.py`)

`setup_logger` works against the process-wide logger registry
(`logging.getLogger(name)` returns the logger registered under `name`,
creating a fresh one with no handlers when absent).  The registry is passed
and returned explicitly; the timestamp used for the default log-file name is
an input.  The formatter, identical on every handler, is abstracted away. -/

/-- A handler attached to a logger: the console stream handler, or a file
handler with its path.  Both carry the level they were configured with. -/
inductive Handler where
  | console (level : Nat)
  | file (path : String) (level : Nat)
deriving DecidableEq

/-- A logger object: its level and its attached handlers, in order.
A fresh logger has level `NOTSET = 0` and no handlers. -/
structure PyLogger where
  level : Nat
  handlers : List Handler
deriving DecidableEq

/-- The process-wide registry behind `logging.getLogger`. -/
abbrev Registry := List (String × PyLogger)

/-- Arguments of `setup_logger` with their Python defaults
(`logging.INFO = 20`). -/
structure LoggerOpts where
  log_dir : Option String := some "logs"
  log_file : Option String := none
  level : Nat := 20
  console_output : Bool := true
  file_output : Bool := true
deriving DecidableEq

/-- Python truthiness of the optional `log_dir` string (`if log_dir:`). -/
def truthyDir : Option String → Bool
  | none => false
  | some s => !s.isEmpty

/-- `logging.getLogger(name)`: the registered logger, or a fresh one. -/
def getLogger (name : String) (reg : Registry) : PyLogger :=
  (dictGet reg name).getD ⟨0, []⟩

/-- The console-handler block of `setup_logger` (lines 45-50). -/
def attachConsole (lg : PyLogger) (opts : LoggerOpts) : PyLogger :=
  if opts.console_output then
    { lg with handlers := lg.handlers ++ [Handler.console opts.level] }
  else lg

/-- The file-handler block of `setup_logger` (lines 52-70): attached when
file output is requested and the log directory is truthy; the file name
defaults to `app_<timestamp>.log`. -/
def attachFile (lg : PyLogger) (opts : LoggerOpts) (timestamp : String) :
    PyLogger :=
  if opts.file_output && truthyDir opts.log_dir then
    { lg with handlers := lg.handlers ++
        [Handler.file (opts.log_dir.getD "" ++ "/" ++
          opts.log_file.getD ("app_" ++ timestamp ++ ".log")) opts.level] }
  else lg

/-- The whole handler-attachment block: console handler, then file handler. -/
def attachHandlers (lg : PyLogger) (opts : LoggerOpts) (timestamp : String) :
    PyLogger :=
  attachFile (attachConsole lg opts) opts timestamp

/-- The branch of `setup_logger` after the level was set: return the logger
unchanged when it already has handlers (the duplicate-handler guard on
lines 36-37), otherwise attach the requested handlers. -/
def setupAttach (lg : PyLogger) (name : String) (opts : LoggerOpts)
    (timestamp : String) (reg : Registry) : PyLogger × Registry :=
  if lg.handlers ≠ [] then
    (lg, dictInsert reg name lg)
  else
    (attachHandlers lg opts timestamp,
     dictInsert reg name (attachHandlers lg opts timestamp))

/-- `setup_logger(name, ...)` (lines 10-72): fetch or create the logger
registered under `name`, set its level, then run the guarded
handler-attachment block.  Returns the logger with the updated registry. -/
def setup_logger (name : String) (opts : LoggerOpts) (timestamp : String)
    (reg : Registry) : PyLogger × Registry :=
  setupAttach { getLogger name reg with level := opts.level } name opts
    timestamp reg

/-- `get_logger(name)` (lines 75-85): a bare registry lookup. -/
def get_logger (name : String) (reg : Registry) : PyLogger :=
  getLogger name reg

/-! ## Concrete configurations and environments used in the claim analyses -/

/-- A configuration whose two `download_urls` keys both end in `_url` yet
collapse to the same derived file type under `key.replace("_url", "")`. -/
def cfgCollide : Config :=
  ⟨some ⟨some [("x_url", "http://h/u1.zip"), ("x_url_url", "http://h/u2.zip")], none⟩,
   some [("bronze", "/data/bronze")]⟩

/-- Environment in which only the second colliding URL transfers
successfully. -/
def envCollide : Env :=
  ⟨2026, 10, fun _ => true,
   fun u => if u = "http://h/u2.zip" then .success else .httpError⟩

/-- A two-entry configuration with distinct derived file types. -/
def cfgTwo : Config :=
  ⟨some ⟨some [("a_url", "http://h/f1.zip"), ("b_url", "http://h/f2.zip")], none⟩,
   some [("bronze", "/b")]⟩

/-- Environment in which every directory creation and transfer succeeds. -/
def envAllOk : Env := ⟨2026, 10, fun _ => true, fun _ => .success⟩

/-- A configuration whose `paths` mapping lacks the `bronze` key. -/
def cfgNoBronze : Config :=
  ⟨some ⟨some [("a_url", "http://h/f1.zip")], none⟩, some []⟩

/-! ## Lemmas about the association-list dictionary operations -/

theorem dictKeys_append {α : Type} (d e : List (String × α)) :
    dictKeys (d ++ e) = dictKeys d ++ dictKeys e :=
  List.map_append Prod.fst d e

theorem dictKeys_update {α : Type} (d : List (String × α)) (k : String) (v : α) :
    dictKeys (d.map (fun p => if p.1 = k then (k, v) else p)) = dictKeys d := by
  simp only [dictKeys, List.map_map]
  apply List.map_congr_left
  intro p _
  by_cases hp : p.1 = k
  · simp [hp]
  · simp [hp]

theorem mem_dictKeys_dictInsert {α : Type} (d : List (String × α)) (k a : String)
    (v : α) : a ∈ dictKeys (dictInsert d k v) ↔ a ∈ dictKeys d ∨ a = k := by
  unfold dictInsert
  by_cases h : k ∈ dictKeys d
  · rw [if_pos h, dictKeys_update]
    constructor
    · exact Or.inl
    · rintro (ha | rfl)
      · exact ha
      · exact h
  · rw [if_neg h, dictKeys_append]
    simp [dictKeys]

theorem length_dictInsert_of_not_mem {α : Type} (d : List (String × α))
    (k : String) (v : α) (h : k ∉ dictKeys d) :
    (dictInsert d k v).length = d.length + 1 := by
  unfold dictInsert
  rw [if_neg h, List.length_append, List.length_singleton]

theorem dictInsert_of_not_mem {α : Type} (d : List (String × α)) (k : String)
    (v : α) (h : k ∉ dictKeys d) : dictInsert d k v = d ++ [(k, v)] := by
  unfold dictInsert
  rw [if_neg h]

theorem dictKeys_dictInsert_nodup {α : Type} (d : List (String × α))
    (k : String) (v : α) (h : (dictKeys d).Nodup) :
    (dictKeys (dictInsert d k v)).Nodup := by
  unfold dictInsert
  by_cases hk : k ∈ dictKeys d
  · rw [if_pos hk, dictKeys_update]
    exact h
  · rw [if_neg hk, dictKeys_append]
    refine List.Nodup.append h (by simp [dictKeys]) ?_
    intro a ha hb
    simp [dictKeys] at hb
    exact hk (hb ▸ ha)

/-! ## Lemmas about the filtering and download loops -/

theorem mem_dictKeys_foldl_urlStep (files : Option (List String)) :
    ∀ (urls acc : List (String × String)) (a : String),
      a ∈ dictKeys (urls.foldl (urlStep files) acc) ↔
        a ∈ dictKeys acc ∨ a ∈ selectedTypes files urls := by
  intro urls
  induction urls with
  | nil => intro acc a; simp [selectedTypes]
  | cons p rest ih =>
    intro acc a
    rw [List.foldl_cons]
    cases h1 : pyEndsWith p.1 "_url" with
    | false =>
      simp only [urlStep, selectedTypes, h1, Bool.false_eq_true, if_false]
      exact ih acc a
    | true =>
      cases h2 : keepType files (pyReplace p.1 "_url" "") with
      | true =>
        simp only [urlStep, selectedTypes, h1, h2, if_true]
        rw [ih, mem_dictKeys_dictInsert]
        simp only [List.mem_cons]
        exact or_assoc
      | false =>
        simp only [urlStep, selectedTypes, h1, h2, if_true,
          Bool.false_eq_true, if_false]
        exact ih acc a

theorem mem_dictKeys_urlsToDownload (insee_urls : List (String × String))
    (files : Option (List String)) (a : String) :
    a ∈ dictKeys (urlsToDownload insee_urls files) ↔
      a ∈ selectedTypes files insee_urls := by
  unfold urlsToDownload
  rw [mem_dictKeys_foldl_urlStep]
  simp [dictKeys]

theorem keepType_some_iff (fs : List String) (a : String) :
    keepType (some fs) a = true ↔ a ∈ fs := by
  simp [keepType]

theorem keepType_none (a : String) : keepType none a = true := rfl

theorem selectedTypes_filter_mem (fs : List String) (urls : List (String × String))
    (a : String) :
    a ∈ selectedTypes (some fs) urls ↔ a ∈ selectedTypes none urls ∧ a ∈ fs := by
  induction urls with
  | nil => simp [selectedTypes]
  | cons p rest ih =>
    cases h1 : pyEndsWith p.1 "_url" with
    | false =>
      simp only [selectedTypes, h1, Bool.false_eq_true, if_false]
      exact ih
    | true =>
      cases h2 : keepType (some fs) (pyReplace p.1 "_url" "") with
      | true =>
        have hmem : pyReplace p.1 "_url" "" ∈ fs := (keepType_some_iff _ _).mp h2
        simp only [selectedTypes, h1, h2, keepType_none, if_true, List.mem_cons]
        constructor
        · rintro (rfl | ha)
          · exact ⟨Or.inl rfl, hmem⟩
          · exact ⟨Or.inr (ih.mp ha).1, (ih.mp ha).2⟩
        · rintro ⟨rfl | ha, hfs⟩
          · exact Or.inl rfl
          · exact Or.inr (ih.mpr ⟨ha, hfs⟩)
      | false =>
        have hmem : pyReplace p.1 "_url" "" ∉ fs := by
          intro hc
          rw [← keepType_some_iff fs (pyReplace p.1 "_url" "")] at hc
          rw [h2] at hc
          cases hc
        simp only [selectedTypes, h1, h2, keepType_none, if_true,
          Bool.false_eq_true, if_false, List.mem_cons]
        rw [ih]
        constructor
        · rintro ⟨ha, hfs⟩
          exact ⟨Or.inr ha, hfs⟩
        · rintro ⟨rfl | ha, hfs⟩
          · exact absurd hfs hmem
          · exact ⟨ha, hfs⟩

theorem nodup_dictKeys_foldl_urlStep (files : Option (List String)) :
    ∀ (urls acc : List (String × String)), (dictKeys acc).Nodup →
      (dictKeys (urls.foldl (urlStep files) acc)).Nodup := by
  intro urls
  induction urls with
  | nil => intro acc h; exact h
  | cons p rest ih =>
    intro acc h
    rw [List.foldl_cons]
    apply ih
    unfold urlStep
    split
    · split
      · exact dictKeys_dictInsert_nodup _ _ _ h
      · exact h
    · exact h

theorem nodup_dictKeys_urlsToDownload (insee_urls : List (String × String))
    (files : Option (List String)) :
    (dictKeys (urlsToDownload insee_urls files)).Nodup :=
  nodup_dictKeys_foldl_urlStep files insee_urls [] (by simp [dictKeys])

theorem length_foldl_urlStep (files : Option (List String)) :
    ∀ (urls acc : List (String × String)),
      (dictKeys acc ++ selectedTypes files urls).Nodup →
      (urls.foldl (urlStep files) acc).length =
        acc.length + (selectedTypes files urls).length := by
  intro urls
  induction urls with
  | nil => intro acc _; simp [selectedTypes]
  | cons p rest ih =>
    intro acc h
    rw [List.foldl_cons]
    cases h1 : pyEndsWith p.1 "_url" with
    | false =>
      simp only [selectedTypes, h1, Bool.false_eq_true, if_false] at h ⊢
      simp only [urlStep, h1, Bool.false_eq_true, if_false]
      exact ih acc h
    | true =>
      cases h2 : keepType files (pyReplace p.1 "_url" "") with
      | true =>
        simp only [selectedTypes, h1, h2, if_true] at h ⊢
        simp only [urlStep, h1, h2, if_true]
        rw [List.nodup_append] at h
        have hft : pyReplace p.1 "_url" "" ∉ dictKeys acc := by
          intro hmem
          exact h.2.2 hmem (List.mem_cons_self _ _)
        have hins := dictInsert_of_not_mem acc (pyReplace p.1 "_url" "") p.2 hft
        have hrec : (dictKeys (dictInsert acc (pyReplace p.1 "_url" "") p.2) ++
            selectedTypes files rest).Nodup := by
          rw [hins, dictKeys_append, List.append_assoc]
          rw [List.nodup_append]
          refine ⟨h.1, ?_, ?_⟩
          · have h2' := h.2.1
            rw [List.nodup_cons] at h2'
            rw [List.nodup_append]
            refine ⟨by simp [dictKeys], h2'.2, ?_⟩
            intro a ha
            simp [dictKeys] at ha
            subst ha
            exact h2'.1
          · intro a ha hb
            rcases List.mem_append.mp hb with hb | hb
            · simp [dictKeys] at hb
              subst hb
              exact h.2.2 ha (List.mem_cons_self _ _)
            · exact h.2.2 ha (List.mem_cons_of_mem _ hb)
        rw [ih _ hrec, hins]
        simp only [List.length_append, List.length_cons, List.length_nil]
        omega
      | false =>
        simp only [selectedTypes, h1, h2, if_true, Bool.false_eq_true,
          if_false] at h ⊢
        simp only [urlStep, h1, h2, if_true, Bool.false_eq_true, if_false]
        exact ih acc h

theorem length_urlsToDownload (insee_urls : List (String × String))
    (files : Option (List String))
    (h : (selectedTypes files insee_urls).Nodup) :
    (urlsToDownload insee_urls files).length =
      (selectedTypes files insee_urls).length := by
  unfold urlsToDownload
  have := length_foldl_urlStep files insee_urls [] (by simpa [dictKeys] using h)
  simpa using this

theorem length_selectedTypes_none (urls : List (String × String)) :
    (selectedTypes none urls).length =
      (urls.filter (fun p => pyEndsWith p.1 "_url")).length := by
  induction urls with
  | nil => rfl
  | cons p rest ih =>
    cases h1 : pyEndsWith p.1 "_url" with
    | false =>
      simp only [selectedTypes, h1, Bool.false_eq_true, if_false,
        List.filter_cons, if_false, ih]
    | true =>
      simp only [selectedTypes, h1, keepType_none, if_true, List.filter_cons,
        List.length_cons, ih]

theorem foldl_resultStep_eq_map (dir : String) (env : Env) :
    ∀ (urls : List (String × String)) (acc : List (String × Bool)),
      (dictKeys acc ++ dictKeys urls).Nodup →
      urls.foldl (resultStep dir env) acc =
        acc ++ urls.map (fun p =>
          (p.1, fetchSucceeded p.2 (dir ++ "/" ++ lastSegment p.2) (env.outcome p.2))) := by
  intro urls
  induction urls with
  | nil => intro acc _; simp
  | cons p rest ih =>
    intro acc h
    rw [List.foldl_cons]
    have hp1 : p.1 ∉ dictKeys acc := by
      rw [List.nodup_append] at h
      intro hmem
      exact h.2.2 hmem (by simp [dictKeys])
    have hstep : resultStep dir env acc p =
        acc ++ [(p.1, fetchSucceeded p.2 (dir ++ "/" ++ lastSegment p.2)
          (env.outcome p.2))] := by
      unfold resultStep
      exact dictInsert_of_not_mem _ _ _ hp1
    rw [hstep, ih _ ?_]
    · simp
    · rw [dictKeys_append, List.append_assoc]
      have heq : dictKeys [(p.1, fetchSucceeded p.2 (dir ++ "/" ++ lastSegment p.2)
          (env.outcome p.2))] ++ dictKeys rest = dictKeys (p :: rest) := by
        simp [dictKeys]
      rw [heq]
      exact h

theorem length_downloadLoop (urls : List (String × String)) (dir : String)
    (env : Env) (h : (dictKeys urls).Nodup) :
    (downloadLoop urls dir env).length = urls.length := by
  unfold downloadLoop
  rw [foldl_resultStep_eq_map dir env urls [] (by simpa [dictKeys] using h)]
  simp

theorem fetchCount_mkdir_cons_map (dir : String) (urls : List (String × String)) :
    fetchCount (Event.mkdirEvt dir ::
      urls.map (fun p => Event.fetchEvt p.1 p.2 (dir ++ "/" ++ lastSegment p.2))) =
      urls.length := by
  unfold fetchCount
  rw [List.filter_cons_of_neg (by simp)]
  induction urls with
  | nil => rfl
  | cons p rest ih =>
    rw [List.map_cons, List.filter_cons_of_pos (by simp), List.length_cons,
      List.length_cons, ih]

theorem urlsToDownload_empty_filter (urls : List (String × String)) :
    urlsToDownload urls (some []) = [] := by
  unfold urlsToDownload
  have h : ∀ acc, urls.foldl (urlStep (some [])) acc = acc := by
    induction urls with
    | nil => intro acc; rfl
    | cons p rest ih =>
      intro acc
      rw [List.foldl_cons]
      have hstep : urlStep (some []) acc p = acc := by
        unfold urlStep
        have hk : keepType (some []) (pyReplace p.1 "_url" "") = false := by
          simp [keepType]
        rw [hk]
        split
        · rfl
        · rfl
      rw [hstep]
      exact ih acc
  exact h []

theorem resolveDir_error_iff (dp : List (String × String)) (out : Option String)
    (env : Env) (e : PyExc) :
    resolveDir dp out env = .error e ↔
      out = none ∧ dictGet dp "bronze" = none ∧ e = .keyError := by
  unfold resolveDir
  cases out with
  | some d => simp
  | none =>
    cases hb : dictGet dp "bronze" with
    | some b => simp
    | none => simp [eq_comm]

/-! ## Lemmas about the orchestrator's three control paths -/

theorem run_resolve_error (config : Config) (output_dir : Option String)
    (files : Option (List String)) (env : Env) (e : PyExc)
    (hres : resolveDir (get_data_paths config) output_dir env = .error e) :
    download_insee_files config output_dir files env = ⟨.error e, []⟩ := by
  unfold download_insee_files
  rw [hres]


theorem run_mkdir_error (config : Config) (output_dir : Option String)
    (files : Option (List String)) (env : Env) (dir : String)
    (hres : resolveDir (get_data_paths config) output_dir env = .ok dir)
    (hmk : env.mkdirOk dir = false) :
    download_insee_files config output_dir files env =
      ⟨.error .osError, [Event.mkdirEvt dir]⟩ := by
  unfold download_insee_files
  rw [hres]
  simp [hmk]

theorem run_ok (config : Config) (output_dir : Option String)
    (files : Option (List String)) (env : Env) (dir : String)
    (hres : resolveDir (get_data_paths config) output_dir env = .ok dir)
    (hmk : env.mkdirOk dir = true) :
    download_insee_files config output_dir files env =
      ⟨.ok (downloadLoop (urlsToDownload (get_insee_urls config) files) dir env),
       Event.mkdirEvt dir ::
         (urlsToDownload (get_insee_urls config) files).map
           (fun p => Event.fetchEvt p.1 p.2 (dir ++ "/" ++ lastSegment p.2))⟩ := by
  unfold download_insee_files
  rw [hres]
  simp [hmk]

theorem mem_fetch_event_iff (config : Config) (files : Option (List String))
    (env : Env) (output_dir : Option String) (dir : String)
    (hres : resolveDir (get_data_paths config) output_dir env = .ok dir)
    (hmk : env.mkdirOk dir = true) (ft : String) :
    (∃ u p, Event.fetchEvt ft u p ∈
        (download_insee_files config output_dir files env).events) ↔
      ft ∈ dictKeys (urlsToDownload (get_insee_urls config) files) := by
  rw [run_ok config output_dir files env dir hres hmk]
  constructor
  · rintro ⟨u, p, hmem⟩
    rcases List.mem_cons.mp hmem with h1 | h1
    · cases h1
    · obtain ⟨q, hq, heq⟩ := List.mem_map.mp h1
      injection heq with ha hb hc
      exact ha ▸ List.mem_map_of_mem Prod.fst hq
  · intro hft
    obtain ⟨q, hq, hq1⟩ := List.mem_map.mp hft
    refine ⟨q.2, dir ++ "/" ++ lastSegment q.2, List.mem_cons_of_mem _ ?_⟩
    rw [← hq1]
    exact List.mem_map_of_mem _ hq

/-! ## Lemmas about the logger registry -/

theorem dictGet_map_update {α : Type} (d : List (String × α)) (k : String)
    (v : α) (h : k ∈ dictKeys d) :
    dictGet (d.map (fun p => if p.1 = k then (k, v) else p)) k = some v := by
  induction d with
  | nil => simp [dictKeys] at h
  | cons p rest ih =>
    rw [List.map_cons]
    by_cases hp : p.1 = k
    · rw [if_pos hp]
      simp [dictGet]
    · have hk : k ∈ dictKeys rest := by
        simp only [dictKeys, List.map_cons, List.mem_cons] at h
        rcases h with h | h
        · exact absurd h.symm hp
        · simpa [dictKeys] using h
      rw [if_neg hp]
      unfold dictGet
      rw [if_neg hp]
      exact ih hk

theorem dictGet_append_fresh {α : Type} (d : List (String × α)) (k : String)
    (v : α) (h : k ∉ dictKeys d) :
    dictGet (d ++ [(k, v)]) k = some v := by
  induction d with
  | nil => simp [dictGet]
  | cons p rest ih =>
    simp only [dictKeys, List.map_cons, List.mem_cons] at h
    push_neg at h
    rw [List.cons_append]
    unfold dictGet
    rw [if_neg (fun hc => h.1 hc.symm)]
    exact ih (by simpa [dictKeys] using h.2)

theorem dictGet_dictInsert_self {α : Type} (d : List (String × α)) (k : String)
    (v : α) : dictGet (dictInsert d k v) k = some v := by
  unfold dictInsert
  by_cases h : k ∈ dictKeys d
  · rw [if_pos h]
    exact dictGet_map_update d k v h
  · rw [if_neg h]
    exact dictGet_append_fresh d k v h

theorem attachConsole_level (lg : PyLogger) (opts : LoggerOpts) :
    (attachConsole lg opts).level = lg.level := by
  unfold attachConsole
  split
  · rfl
  · rfl

theorem attachFile_level (lg : PyLogger) (opts : LoggerOpts) (ts : String) :
    (attachFile lg opts ts).level = lg.level := by
  unfold attachFile
  split
  · rfl
  · rfl

theorem attachHandlers_level (lg : PyLogger) (opts : LoggerOpts) (ts : String) :
    (attachHandlers lg opts ts).level = lg.level := by
  unfold attachHandlers
  rw [attachFile_level, attachConsole_level]

theorem attachConsole_handlers (lg : PyLogger) (opts : LoggerOpts) :
    (attachConsole lg opts).handlers =
      lg.handlers ++
        (if opts.console_output then [Handler.console opts.level] else []) := by
  unfold attachConsole
  split
  · rfl
  · simp

theorem attachFile_handlers (lg : PyLogger) (opts : LoggerOpts) (ts : String) :
    (attachFile lg opts ts).handlers =
      lg.handlers ++
        (if opts.file_output && truthyDir opts.log_dir then
          [Handler.file (opts.log_dir.getD "" ++ "/" ++
            opts.log_file.getD ("app_" ++ ts ++ ".log")) opts.level]
         else []) := by
  unfold attachFile
  split
  · rfl
  · simp

theorem attachHandlers_handlers (lg : PyLogger) (opts : LoggerOpts) (ts : String) :
    (attachHandlers lg opts ts).handlers =
      lg.handlers ++
        (if opts.console_output then [Handler.console opts.level] else []) ++
        (if opts.file_output && truthyDir opts.log_dir then
          [Handler.file (opts.log_dir.getD "" ++ "/" ++
            opts.log_file.getD ("app_" ++ ts ++ ".log")) opts.level]
         else []) := by
  unfold attachHandlers
  rw [attachFile_handlers, attachConsole_handlers]

theorem attachHandlers_id (lg : PyLogger) (opts : LoggerOpts) (ts : String)
    (h1 : opts.console_output = false)
    (h2 : (opts.file_output && truthyDir opts.log_dir) = false) :
    attachHandlers lg opts ts = lg := by
  unfold attachHandlers attachFile attachConsole
  rw [h1, h2]
  simp

theorem attachHandlers_nodup_of_empty (lvl : Nat) (opts : LoggerOpts)
    (ts : String) :
    ((attachHandlers ⟨lvl, []⟩ opts ts).handlers).Nodup := by
  rw [attachHandlers_handlers]
  cases h1 : opts.console_output <;>
    cases h2 : opts.file_output && truthyDir opts.log_dir <;>
      simp [h1, h2]

/-! ## Claim analyses -/

/-- Claim C1: whenever the parent-directory creation succeeds,
`download_file` returns `true` exactly when the transfer completed, and each
of the four failure classes (timeout, HTTP error, other network error, local
I/O error) is caught inside the function, logged with its distinguishing
cause, and converted to a `false` return — no such fault escapes to the
caller as a raised exception (the result is always `Except.ok`). -/
theorem download_file_catches_transfer_faults (url local_path : String)
    (env : FetchEnv) (h : env.mkdirOk = true) :
    (∃ b, (download_file url local_path env).1 = .ok b) ∧
    ((download_file url local_path env).1 = .ok true ↔
      env.outcome = .success) ∧
    (env.outcome = .timeout → download_file url local_path env =
      (.ok false, [.debugStart url, .errTimeout url])) ∧
    (env.outcome = .httpError → download_file url local_path env =
      (.ok false, [.debugStart url, .errHTTP url])) ∧
    (env.outcome = .networkError → download_file url local_path env =
      (.ok false, [.debugStart url, .errNetwork url])) ∧
    (env.outcome = .ioError → download_file url local_path env =
      (.ok false, [.debugStart url, .errWrite local_path])) := by
  obtain ⟨mk, oc⟩ := env
  cases h
  cases oc <;> simp [download_file]

/-- Witness for C1 at a concrete timeout environment. -/
theorem download_file_catches_transfer_faults_witness :
    download_file "http://h/f" "/d/f" ⟨true, .timeout⟩ =
      (.ok false, [.debugStart "http://h/f", .errTimeout "http://h/f"]) :=
  (download_file_catches_transfer_faults "http://h/f" "/d/f"
    ⟨true, .timeout⟩ rfl).2.2.1 rfl

/-- Claim C9: `download_file` creates the destination's parent directories
before entering the `try` block, so a failing directory creation propagates
to the caller as a raised `OSError`; no transfer is attempted (the log is
empty — not even the pre-request debug entry was emitted). -/
theorem download_file_mkdir_fault_propagates (url local_path : String)
    (env : FetchEnv) (h : env.mkdirOk = false) :
    download_file url local_path env = (.error .osError, []) := by
  obtain ⟨mk, oc⟩ := env
  cases h
  simp [download_file]

/-- Witness for C9 at a concrete environment whose directory creation
fails. -/
theorem download_file_mkdir_fault_propagates_witness :
    download_file "http://h/f" "/d/f" ⟨false, .success⟩ =
      (.error .osError, []) :=
  download_file_mkdir_fault_propagates "http://h/f" "/d/f"
    ⟨false, .success⟩ rfl

/-- Claim C6: the configuration accessors return the empty mapping when the
requested key is absent — `insee` missing, `insee.download_urls` missing, or
`paths` missing — and, being total functions into plain mappings, never
raise a fault for a missing key. -/
theorem config_missing_key_yields_empty (c : Config) :
    (c.insee = none → get_insee_urls c = []) ∧
    (∀ s, c.insee = some s → s.download_urls = none → get_insee_urls c = []) ∧
    (c.paths = none → get_data_paths c = []) := by
  refine ⟨?_, ?_, ?_⟩
  · intro h
    simp [get_insee_urls, h]
  · intro s hs hd
    simp [get_insee_urls, hs, hd]
  · intro h
    simp [get_data_paths, h]

/-- Witness for C6 at concrete partial configurations. -/
theorem config_missing_key_yields_empty_witness :
    get_insee_urls ⟨none, none⟩ = [] ∧
    get_insee_urls ⟨some ⟨none, none⟩, none⟩ = [] ∧
    get_data_paths ⟨none, none⟩ = [] :=
  ⟨(config_missing_key_yields_empty ⟨none, none⟩).1 rfl,
   (config_missing_key_yields_empty ⟨some ⟨none, none⟩, none⟩).2.1
     ⟨none, none⟩ rfl rfl,
   (config_missing_key_yields_empty ⟨none, none⟩).2.2 rfl⟩

/-- Claim C8: the file type is derived with `key.replace("_url", "")`, which
removes every occurrence of `_url`; on `cfgCollide` the two distinct keys
`x_url` and `x_url_url` (both `_url`-suffixed, so N = 2) map to the same
file type `x`, the later entry's URL overwrites the earlier in
`urls_to_download`, and the report has 1 < 2 entries — its single value
comes from the second URL (which succeeds while the first errors). -/
theorem run_replace_all_collision :
    (pyReplace "x_url" "_url" "" = "x" ∧ pyReplace "x_url_url" "_url" "" = "x") ∧
    ((get_insee_urls cfgCollide).filter (fun p => pyEndsWith p.1 "_url")).length = 2 ∧
    urlsToDownload (get_insee_urls cfgCollide) none = [("x", "http://h/u2.zip")] ∧
    (download_insee_files cfgCollide none none envCollide).result =
      .ok [("x", true)] ∧
    ((download_insee_files cfgCollide none none envCollide).result.toOption.getD
        []).length <
      ((get_insee_urls cfgCollide).filter (fun p => pyEndsWith p.1 "_url")).length :=
  ⟨⟨rfl, rfl⟩, rfl, rfl, rfl, by decide⟩

/-- Counterexample to claim C2 as stated: `cfgCollide` has exactly N = 2
entries whose keys end in `_url`, yet the unfiltered run attempts a single
transfer and returns a report with one entry. -/
theorem run_report_size_counterexample :
    ((get_insee_urls cfgCollide).filter (fun p => pyEndsWith p.1 "_url")).length = 2 ∧
    (download_insee_files cfgCollide none none envCollide).result =
      .ok [("x", true)] ∧
    fetchCount (download_insee_files cfgCollide none none envCollide).events = 1 :=
  ⟨rfl, rfl, rfl⟩

/-- Claim C2 (amended): when the derived file types of the `_url`-suffixed
entries are pairwise distinct — one per entry — an unfiltered run attempts
exactly N transfers and returns a report with exactly N entries, N being the
number of `_url`-suffixed keys; in general the report has one entry per
distinct derived file type. -/
theorem run_report_size (config : Config) (output_dir : Option String)
    (env : Env) (dir : String)
    (hnd : (selectedTypes none (get_insee_urls config)).Nodup)
    (hdir : resolveDir (get_data_paths config) output_dir env = .ok dir)
    (hmk : env.mkdirOk dir = true) :
    (download_insee_files config output_dir none env).result =
      .ok (downloadLoop (urlsToDownload (get_insee_urls config) none) dir env) ∧
    (downloadLoop (urlsToDownload (get_insee_urls config) none) dir env).length =
      ((get_insee_urls config).filter (fun p => pyEndsWith p.1 "_url")).length ∧
    fetchCount (download_insee_files config output_dir none env).events =
      ((get_insee_urls config).filter (fun p => pyEndsWith p.1 "_url")).length := by
  have hrun := run_ok config output_dir none env dir hdir hmk
  have hlen : (urlsToDownload (get_insee_urls config) none).length =
      ((get_insee_urls config).filter (fun p => pyEndsWith p.1 "_url")).length := by
    rw [length_urlsToDownload _ _ hnd, length_selectedTypes_none]
  refine ⟨?_, ?_, ?_⟩
  · rw [hrun]
  · rw [length_downloadLoop _ _ _ (nodup_dictKeys_urlsToDownload _ _), hlen]
  · rw [hrun]
    exact (fetchCount_mkdir_cons_map dir _).trans hlen

/-- Witness for the amended C2 on a two-entry configuration with distinct
derived types. -/
theorem run_report_size_witness :
    (download_insee_files cfgTwo (some "/out") none envAllOk).result =
      .ok (downloadLoop (urlsToDownload (get_insee_urls cfgTwo) none)
        "/out" envAllOk) ∧
    (downloadLoop (urlsToDownload (get_insee_urls cfgTwo) none)
        "/out" envAllOk).length =
      ((get_insee_urls cfgTwo).filter (fun p => pyEndsWith p.1 "_url")).length ∧
    fetchCount (download_insee_files cfgTwo (some "/out") none envAllOk).events =
      ((get_insee_urls cfgTwo).filter (fun p => pyEndsWith p.1 "_url")).length :=
  run_report_size cfgTwo (some "/out") envAllOk "/out" (by decide) rfl rfl

/-- Counterexample to claim C3 as stated: on a configuration whose `paths`
mapping lacks the `bronze` key and with no `output_dir`, `run` raises a
`KeyError` from the `data_paths["bronze"]` subscript — a fault that is
neither a directory-creation I/O fault (no directory creation was even
attempted: the trace is empty, and every `mkdir` in the environment
succeeds) nor a `ConfigNotFound`/`ConfigParseError` (the configuration is
already resolved). -/
theorem run_fault_counterexample :
    (download_insee_files cfgNoBronze none none envAllOk).result =
      .error .keyError ∧
    (download_insee_files cfgNoBronze none none envAllOk).events = [] ∧
    PyExc.keyError ≠ PyExc.osError :=
  ⟨rfl, rfl, by decide⟩

/-- Claim C3 (amended): `run` raises no error for individual transfer
failures — the transfer outcomes never influence whether the result is an
error — and the only faults it can raise are the directory-creation
`OSError`, the configuration-resolution faults (outside this embedding,
which receives a resolved configuration), and additionally a `KeyError`
when `output_dir` is absent and the configured paths lack `bronze`. -/
theorem run_fault_characterization (config : Config) (output_dir : Option String)
    (files : Option (List String)) (env : Env) (e : PyExc) :
    (download_insee_files config output_dir files env).result = .error e ↔
      ((output_dir = none ∧ dictGet (get_data_paths config) "bronze" = none ∧
        e = .keyError) ∨
       (∃ dir, resolveDir (get_data_paths config) output_dir env = .ok dir ∧
        env.mkdirOk dir = false ∧ e = .osError)) := by
  cases hres : resolveDir (get_data_paths config) output_dir env with
  | error e2 =>
    have hres2 := hres
    rw [resolveDir_error_iff] at hres2
    obtain ⟨h1, h2, rfl⟩ := hres2
    rw [run_resolve_error config output_dir files env _ hres]
    constructor
    · intro h
      injection h with h3
      left
      exact ⟨h1, h2, h3.symm⟩
    · rintro (⟨_, _, rfl⟩ | ⟨dir, hdir, _, _⟩)
      · rfl
      · cases hdir
  | ok dir =>
    cases hmk : env.mkdirOk dir with
    | true =>
      rw [run_ok config output_dir files env dir hres hmk]
      constructor
      · intro h
        simp at h
      · rintro (⟨hout, hb, rfl⟩ | ⟨dir2, hdir2, hmk2, rfl⟩)
        · have hcontra : resolveDir (get_data_paths config) output_dir env =
              .error .keyError := by
            rw [resolveDir_error_iff]
            exact ⟨hout, hb, rfl⟩
          rw [hres] at hcontra
          cases hcontra
        · injection hdir2 with hd
          rw [← hd] at hmk2
          rw [hmk] at hmk2
          cases hmk2
    | false =>
      rw [run_mkdir_error config output_dir files env dir hres hmk]
      constructor
      · intro h
        injection h with h3
        right
        exact ⟨dir, rfl, hmk, h3.symm⟩
      · rintro (⟨hout, hb, rfl⟩ | ⟨dir2, hdir2, hmk2, rfl⟩)
        · have hcontra : resolveDir (get_data_paths config) output_dir env =
              .error .keyError := by
            rw [resolveDir_error_iff]
            exact ⟨hout, hb, rfl⟩
          rw [hres] at hcontra
          cases hcontra
        · rfl

/-- Claim C4: with the destination directory creatable, a filtered run
attempts a transfer for a file type exactly when it is selected by the
unfiltered run and belongs to the supplied list (set-intersection
semantics); the unfiltered run attempts a transfer exactly for every
derived file type of a `_url`-suffixed key. -/
theorem run_filter_intersection (config : Config) (out : String) (env : Env)
    (fs : List String) (ft : String) (hmk : env.mkdirOk out = true) :
    ((∃ u p, Event.fetchEvt ft u p ∈
        (download_insee_files config (some out) (some fs) env).events) ↔
      (∃ u p, Event.fetchEvt ft u p ∈
        (download_insee_files config (some out) none env).events) ∧ ft ∈ fs) ∧
    ((∃ u p, Event.fetchEvt ft u p ∈
        (download_insee_files config (some out) none env).events) ↔
      ft ∈ selectedTypes none (get_insee_urls config)) := by
  have hdir : resolveDir (get_data_paths config) (some out) env = .ok out := rfl
  have h1 := mem_fetch_event_iff config (some fs) env (some out) out hdir hmk ft
  have h2 := mem_fetch_event_iff config none env (some out) out hdir hmk ft
  constructor
  · rw [h1, h2, mem_dictKeys_urlsToDownload, mem_dictKeys_urlsToDownload,
      selectedTypes_filter_mem]
  · rw [h2, mem_dictKeys_urlsToDownload]

/-- Witness for C4 on the two-entry configuration with the filter `["a"]`
and the file type `a`. -/
theorem run_filter_intersection_witness :
    ((∃ u p, Event.fetchEvt "a" u p ∈
        (download_insee_files cfgTwo (some "/out") (some ["a"]) envAllOk).events) ↔
      (∃ u p, Event.fetchEvt "a" u p ∈
        (download_insee_files cfgTwo (some "/out") none envAllOk).events) ∧
        "a" ∈ ["a"]) ∧
    ((∃ u p, Event.fetchEvt "a" u p ∈
        (download_insee_files cfgTwo (some "/out") none envAllOk).events) ↔
      "a" ∈ selectedTypes none (get_insee_urls cfgTwo)) :=
  run_filter_intersection cfgTwo "/out" envAllOk ["a"] "a" rfl

/-- Claim C5: the destination directory is `output_dir` when supplied, and
otherwise the configured `bronze` path joined with the `YYYY-MM` timestamp
of the current year and zero-padded month; the run's first observable action
is the creation of exactly that directory, and everything after it is a
transfer — so the directory is created before any transfer starts. -/
theorem run_destination_directory (config : Config) (output_dir : Option String)
    (files : Option (List String)) (env : Env) (dir b : String)
    (hdir : output_dir = some dir ∨
      (output_dir = none ∧ dictGet (get_data_paths config) "bronze" = some b ∧
       dir = b ++ "/" ++ formatYM env.year env.month)) :
    ∃ rest, (download_insee_files config output_dir files env).events =
        Event.mkdirEvt dir :: rest ∧
      ∀ e ∈ rest, ∃ ft u p, e = Event.fetchEvt ft u p := by
  have hres : resolveDir (get_data_paths config) output_dir env = .ok dir := by
    rcases hdir with rfl | ⟨rfl, hb, rfl⟩
    · rfl
    · unfold resolveDir
      rw [hb]
  cases hmk : env.mkdirOk dir with
  | true =>
    rw [run_ok config output_dir files env dir hres hmk]
    refine ⟨_, rfl, ?_⟩
    intro e he
    obtain ⟨q, _, rfl⟩ := List.mem_map.mp he
    exact ⟨q.1, q.2, _, rfl⟩
  | false =>
    rw [run_mkdir_error config output_dir files env dir hres hmk]
    refine ⟨[], rfl, ?_⟩
    intro e he
    cases he

/-- Witness for C5: with no `output_dir`, the destination resolves to
`<bronze>/2026-10` and is created first. -/
theorem run_destination_directory_witness :
    ∃ rest, (download_insee_files cfgTwo none none envAllOk).events =
        Event.mkdirEvt "/b/2026-10" :: rest ∧
      ∀ e ∈ rest, ∃ ft u p, e = Event.fetchEvt ft u p :=
  run_destination_directory cfgTwo none none envAllOk "/b/2026-10" "/b"
    (Or.inr ⟨rfl, rfl, rfl⟩)

/-- Claim C10: an empty `files_to_download` list selects no entries — the
run attempts no transfer and returns an empty report — while the
destination directory is still resolved and created (the trace is exactly
the directory creation). -/
theorem run_empty_filter (config : Config) (output_dir : Option String)
    (env : Env) (dir : String)
    (hdir : resolveDir (get_data_paths config) output_dir env = .ok dir)
    (hmk : env.mkdirOk dir = true) :
    (download_insee_files config output_dir (some []) env).result = .ok [] ∧
    (download_insee_files config output_dir (some []) env).events =
      [Event.mkdirEvt dir] := by
  have hrun := run_ok config output_dir (some []) env dir hdir hmk
  rw [urlsToDownload_empty_filter] at hrun
  rw [hrun]
  exact ⟨rfl, rfl⟩

/-- Witness for C10 on the two-entry configuration with an empty filter. -/
theorem run_empty_filter_witness :
    (download_insee_files cfgTwo none (some []) envAllOk).result = .ok [] ∧
    (download_insee_files cfgTwo none (some []) envAllOk).events =
      [Event.mkdirEvt "/b/2026-10"] :=
  run_empty_filter cfgTwo none envAllOk "/b/2026-10" rfl rfl

/-- Claim C7: logger setup is idempotent per name — starting from a registry
where the name is unregistered, a second `setup_logger` call with the same
name and options returns the very logger produced by the first call, whose
handler list holds each handler exactly once (no duplicates), regardless of
the timestamps of the two calls. -/
theorem setup_logger_idempotent (name : String) (opts : LoggerOpts)
    (ts1 ts2 : String) (reg : Registry) (h : dictGet reg name = none) :
    (setup_logger name opts ts2 (setup_logger name opts ts1 reg).2).1 =
      (setup_logger name opts ts1 reg).1 ∧
    ((setup_logger name opts ts1 reg).1).handlers.Nodup := by
  have hget1 : getLogger name reg = ⟨0, []⟩ := by
    unfold getLogger
    rw [h]
    rfl
  have h1 : setup_logger name opts ts1 reg =
      (attachHandlers ⟨opts.level, []⟩ opts ts1,
       dictInsert reg name (attachHandlers ⟨opts.level, []⟩ opts ts1)) := by
    unfold setup_logger
    rw [hget1]
    rfl
  rw [h1]
  refine ⟨?_, attachHandlers_nodup_of_empty opts.level opts ts1⟩
  have hget2 : getLogger name (dictInsert reg name
      (attachHandlers ⟨opts.level, []⟩ opts ts1)) =
      attachHandlers ⟨opts.level, []⟩ opts ts1 := by
    unfold getLogger
    rw [dictGet_dictInsert_self]
    rfl
  have hlevel := attachHandlers_level ⟨opts.level, []⟩ opts ts1
  have hsetup2 : setup_logger name opts ts2 (dictInsert reg name
      (attachHandlers ⟨opts.level, []⟩ opts ts1)) =
      setupAttach (attachHandlers ⟨opts.level, []⟩ opts ts1) name opts ts2
        (dictInsert reg name (attachHandlers ⟨opts.level, []⟩ opts ts1)) := by
    unfold setup_logger
    rw [hget2]
    cases hL : attachHandlers ⟨opts.level, []⟩ opts ts1 with
    | mk lvl hs =>
      rw [hL] at hlevel
      simp only [PyLogger.level] at hlevel
      rw [hlevel]
  rw [hsetup2]
  cases hcase : (attachHandlers ⟨opts.level, []⟩ opts ts1).handlers with
  | nil =>
    rw [attachHandlers_handlers] at hcase
    simp only [PyLogger.handlers, List.nil_append, List.append_eq_nil] at hcase
    obtain ⟨hc, hf⟩ := hcase
    have hcons : opts.console_output = false := by
      cases hcc : opts.console_output
      · rfl
      · rw [hcc] at hc
        simp at hc
    have hfile : (opts.file_output && truthyDir opts.log_dir) = false := by
      cases hff : opts.file_output && truthyDir opts.log_dir
      · rfl
      · rw [hff] at hf
        simp at hf
    unfold setupAttach
    have hnil : (attachHandlers ⟨opts.level, []⟩ opts ts1).handlers = [] := by
      rw [attachHandlers_handlers]
      simp [hcons, hfile]
    rw [if_neg (by rw [hnil]; simp)]
    rw [attachHandlers_id _ _ _ hcons hfile]
  | cons hh ht =>
    unfold setupAttach
    rw [if_pos (by rw [hcase]; simp)]

/-- Witness for C7 at a concrete fresh registry with the default options. -/
theorem setup_logger_idempotent_witness :
    (setup_logger "ingest" ⟨some "logs", none, 20, true, true⟩ "20260101_000000"
      (setup_logger "ingest" ⟨some "logs", none, 20, true, true⟩
        "20260101_000000" []).2).1 =
      (setup_logger "ingest" ⟨some "logs", none, 20, true, true⟩
        "20260101_000000" []).1 ∧
    ((setup_logger "ingest" ⟨some "logs", none, 20, true, true⟩
        "20260101_000000" []).1).handlers.Nodup :=
  setup_logger_idempotent "ingest" ⟨some "logs", none, 20, true, true⟩
    "20260101_000000" "20260101_000000" [] rfl

end BizClosure
